import Mathlib

/-
Verification of the RBE reservation reconciliation core of the sampled
luci-go repository (swarming/server/rbe).  The implementation file for the
`ReservationServer` is not present in the sampled sources; only its unit
test (`src/swarming/server/rbe/reservation_test.go`) is.  The definitions
below are therefore modelled from the specification text, with concrete
wire formats (reservation name format, the "label:" constraint key
namespace, Go gRPC error rendering) taken from the expectations of the
unit test, which is part of the sampled sources.
-/

namespace LuciRBE

/-- Modelled from the spec: the status codes of the status-coded errors
exchanged with the Reservation Client and Local Bookkeeping Client
(already-exists, not-found, failed-precondition, permission-denied,
aborted, deadline-exceeded, internal, unavailable, canceled, plus OK and
invalid-argument which appear in the unit test). -/
inductive Code where
  | ok
  | cancelled
  | invalidArgument
  | deadlineExceeded
  | notFound
  | alreadyExists
  | permissionDenied
  | failedPrecondition
  | aborted
  | internal
  | unavailable
  deriving DecidableEq, Repr

/-- The CamelCase name Go's gRPC library uses when rendering a status
code inside an error string (as seen in the unit test expectation
"rpc error: code = FailedPrecondition desc = boom"). -/
def Code.goName : Code → String
  | .ok => "OK"
  | .cancelled => "Canceled"
  | .invalidArgument => "InvalidArgument"
  | .deadlineExceeded => "DeadlineExceeded"
  | .notFound => "NotFound"
  | .alreadyExists => "AlreadyExists"
  | .permissionDenied => "PermissionDenied"
  | .failedPrecondition => "FailedPrecondition"
  | .aborted => "Aborted"
  | .internal => "Internal"
  | .unavailable => "Unavailable"

/-- Modelled from the spec: a rich error status, "code + message".  A
missing status is represented by code OK with an empty message, matching
how the unit test converts a nil error into a status proto. -/
structure GStatus where
  code : Code
  message : String
  deriving DecidableEq, Repr

/-- Go gRPC error rendering, as expected by the unit test:
"rpc error: code = FailedPrecondition desc = boom". -/
def renderStatus (s : GStatus) : String :=
  "rpc error: code = " ++ s.code.goName ++ " desc = " ++ s.message

/-- Modelled from the spec: reservation state, one of PENDING,
ASSIGNED-ish/in-flight, COMPLETED, CANCELLED. -/
inductive ReservationState where
  | pending
  | assigned
  | completed
  | cancelled
  deriving DecidableEq, Repr

/-- Modelled from the spec: the opaque reservation result; the only field
the reconciliation core inspects is the bot-internal-error string
(`TaskResult.bot_internal_error` in the unit test). -/
structure TaskResult where
  botInternalError : String
  deriving DecidableEq, Repr

/-- Diagnostic version tags carried by the task payload
(`TaskPayload.DebugInfo` in the unit test). -/
structure DebugInfo where
  pySwarmingVersion : String
  goSwarmingVersion : String
  deriving DecidableEq, Repr

/-- Modelled from the spec: the Task Slice Payload, carrying the slice
identity (task id, slice index, shard, per-shard sequence id) plus the
reservation id and diagnostic version tags (`TaskPayload` in the unit
test). -/
structure TaskPayload where
  reservationId : String
  taskId : String
  sliceIndex : Nat
  taskToRunShard : Nat
  taskToRunId : Nat
  debugInfo : DebugInfo
  deriving DecidableEq, Repr

/-- A key/value match requirement on a reservation
(`EnqueueRBETask_Constraint` / `remoteworkers.Constraint` in the unit
test). -/
structure Constraint where
  key : String
  allowedValues : List String
  deriving DecidableEq, Repr

/-- Modelled from the spec: the external reservation entity.  Times are
abstract instants (Nat) and timeouts abstract durations (Nat), so that
expire-time = expiry + execution timeout and
queueing-timeout = expiry - now are plain arithmetic. -/
structure Reservation where
  name : String
  state : ReservationState
  payload : TaskPayload
  constraints : List Constraint
  expireTime : Nat
  queuingTimeout : Nat
  executionTimeout : Nat
  priority : Int
  requestedBotId : String
  deriving DecidableEq, Repr

/-- The enqueue work-queue event (`EnqueueRBETask` in the unit test):
slice identity + payload, scheduler instance, expiry time, execution
timeout, requested-bot hint, constraints, priority. -/
structure EnqueueRBETask where
  payload : TaskPayload
  rbeInstance : String
  expiry : Nat
  executionTimeout : Nat
  requestedBotId : String
  constraints : List Constraint
  priority : Int
  deriving DecidableEq, Repr

/-- The cancel work-queue event (`CancelRBETask` in the unit test). -/
structure CancelRBETask where
  rbeInstance : String
  reservationId : String
  deriving DecidableEq, Repr

/-- Modelled from the spec: the Claim Record of a slice, with its
optional "still waiting" marker; `reapable = true` means the marker is
present (the slice is unclaimed), `reapable = false` means it was
claimed.  In the unit test this is the `TaskToRun` entity and the marker
is its optional `Expiration` field. -/
structure ClaimRecord where
  reapable : Bool
  deriving DecidableEq, Repr

/-- Whether a looked-up Claim Record exists and is still reapable:
an absent record or one without the marker is not reapable. -/
def isReapable : Option ClaimRecord → Bool
  | some c => c.reapable
  | none => false

/-- The wire-visible Reason enumeration of a retire decision
(`ExpireSliceRequest_Reason` in the unit test). -/
inductive ExpireReason where
  | unspecified
  | expired
  | noResource
  | permissionDenied
  | botInternalError
  deriving DecidableEq, Repr

/-- Modelled from the spec: the Retire Request command value sent to the
Local Bookkeeping Client (`ExpireSliceRequest` in the unit test): slice
identity + Reason + free-text Details. -/
structure ExpireSliceRequest where
  taskId : String
  taskToRunShard : Nat
  taskToRunId : Nat
  reason : ExpireReason
  details : String
  deriving DecidableEq, Repr

/-- The bot-internal-error string carried by an optional result (empty
when the result is absent). -/
def botErr : Option TaskResult → String
  | some r => r.botInternalError
  | none => ""

/-- Modelled from the spec (section 4.1): the Outcome Classifier, a pure
function from (reservation state, status, result bot-internal-error) to
either no decision or (Reason, Details), applying the priority-ordered
rules 1-7 of the spec. -/
def classify (state : ReservationState) (st : GStatus) (result : Option TaskResult) :
    Option (ExpireReason × String) :=
  if state ≠ ReservationState.completed then
    none
  else if botErr result ≠ "" then
    some (ExpireReason.botInternalError, botErr result)
  else
    match st.code with
    | Code.deadlineExceeded => some (ExpireReason.expired, st.message)
    | Code.failedPrecondition => some (ExpireReason.noResource, st.message)
    | Code.aborted => some (ExpireReason.botInternalError, st.message)
    | Code.cancelled => none
    | _ =>
      match result with
      | some _ => none
      | none => some (ExpireReason.botInternalError, "unexpectedly finished")

/-- The deterministic remote name of a reservation, a function of the
scheduler instance and the reservation id; format from the unit test
expectation "instance/reservations/reservation-id". -/
def resName (rbeInstance reservationId : String) : String :=
  rbeInstance ++ "/reservations/" ++ reservationId

/-- Modelled from the spec (section 4.2 step 2): the Reservation the
Enqueue Handler constructs: deterministic name, expire-time =
input expiry + execution timeout, queueing-timeout = input expiry - now,
constraints re-keyed with the fixed "label:" namespace (format from the
unit test), payload annotated with the handler's own server version
tag. -/
def buildReservation (serverVersion : String) (t : EnqueueRBETask) (now : Nat) : Reservation :=
  { name := resName t.rbeInstance t.payload.reservationId
    state := ReservationState.pending
    payload := { t.payload with
                 debugInfo := { t.payload.debugInfo with goSwarmingVersion := serverVersion } }
    constraints := t.constraints.map fun c => { c with key := "label:" ++ c.key }
    expireTime := t.expiry + t.executionTimeout
    queuingTimeout := t.expiry - now
    executionTimeout := t.executionTimeout
    priority := t.priority
    requestedBotId := t.requestedBotId }

/-- Modelled from the spec (section 7): the outcome a handler reports to
the work-queue dispatcher.  `success` = handled; `transientFailure` =
retryable, nothing decided; `ignore` = terminal and expected/ignorable
(tq.Ignore in the unit test); `fatal` = terminal and unexpected/alerting
(tq.Fatal in the unit test). -/
inductive Outcome where
  | success
  | transientFailure
  | ignore
  | fatal
  deriving DecidableEq, Repr

/-- Whether the dispatcher retries the event after this outcome: only a
transient failure is redelivered. -/
def Outcome.retried : Outcome → Bool
  | Outcome.transientFailure => true
  | _ => false

/-- Whether the outcome reports the event as handled (success-like, no
further retry): plain success and the terminal-ignorable outcome. -/
def Outcome.reportsHandled : Outcome → Bool
  | Outcome.success => true
  | Outcome.ignore => true
  | _ => false

/-- Modelled from the spec (section 4.2 step 5): whether a create error
is a transient infrastructure error (internal/unavailable), answered by
a retryable failure with no retire. -/
def isTransientCode : Code → Bool
  | Code.internal => true
  | Code.unavailable => true
  | _ => false

/-- Modelled from the spec (section 4.2 step 6): the narrower classifier
mapping a terminal create-error status code to a retire Reason:
failed-precondition to NO_RESOURCE, permission-denied to
PERMISSION_DENIED, default to BOT_INTERNAL_ERROR. -/
def enqueueFatalReason : Code → ExpireReason
  | Code.failedPrecondition => ExpireReason.noResource
  | Code.permissionDenied => ExpireReason.permissionDenied
  | _ => ExpireReason.botInternalError

/-- Modelled from the spec (section 4.2 step 6): whether the original
create error was an anticipated scheduling failure (no eligible bot,
reported as failed-precondition), making the terminal outcome
expected/ignorable rather than unexpected/alerting. -/
def isExpectedEnqueueFailure : Code → Bool
  | Code.failedPrecondition => true
  | _ => false

/-- The environment of one Enqueue Handler invocation: the Claim Record
the lookup returns, the error (if any) the Reservation Client's create
returns, and the error (if any) the Local Bookkeeping Client's retire
returns.  `none` for an error slot means the call succeeds. -/
structure EnqueueEnv where
  claim : Option ClaimRecord
  createResult : Option GStatus
  retireResult : Option GStatus
  deriving DecidableEq, Repr

/-- The observable effects of one Enqueue Handler invocation: the
reported outcome, the Reservation passed to the create call (none when
create was never called), and the Retire Request passed to the retire
call (none when retire was never called). -/
structure EnqueueEffects where
  outcome : Outcome
  created : Option Reservation
  retired : Option ExpireSliceRequest
  deriving DecidableEq, Repr

/-- Modelled from the spec (section 4.2): the Enqueue Handler
(`handleEnqueueRBETask` in the unit test).  If the Claim Record is
absent or not reapable, success with no remote call.  Otherwise build
the Reservation and call create: success or already-exists converges to
success; a transient infrastructure error is a retryable failure with no
retire; any other error is classified and retire is called with the
classified Reason and the error's rendered text as Details -- a
successful retire yields a terminal outcome (ignorable when the error
was anticipated, alerting otherwise), a failed retire discards the
classification and yields a plain retryable failure. -/
def handleEnqueueRBETask (serverVersion : String) (t : EnqueueRBETask) (now : Nat)
    (env : EnqueueEnv) : EnqueueEffects :=
  if isReapable env.claim = false then
    { outcome := Outcome.success, created := none, retired := none }
  else
    let res := buildReservation serverVersion t now
    match env.createResult with
    | none => { outcome := Outcome.success, created := some res, retired := none }
    | some st =>
      if st.code = Code.alreadyExists then
        { outcome := Outcome.success, created := some res, retired := none }
      else if isTransientCode st.code then
        { outcome := Outcome.transientFailure, created := some res, retired := none }
      else
        let req : ExpireSliceRequest :=
          { taskId := t.payload.taskId
            taskToRunShard := t.payload.taskToRunShard
            taskToRunId := t.payload.taskToRunId
            reason := enqueueFatalReason st.code
            details := renderStatus st }
        match env.retireResult with
        | none =>
          { outcome := if isExpectedEnqueueFailure st.code then Outcome.ignore
                       else Outcome.fatal
            created := some res
            retired := some req }
        | some _ =>
          { outcome := Outcome.transientFailure, created := some res, retired := some req }

/-- Modelled from the spec: the cancellation intent; "any" cancels
unconditionally regardless of current assignment
(`CancelReservationIntent_ANY` in the unit test). -/
inductive CancelIntent where
  | unspecifiedIntent
  | anyIntent
  | ifNotAssigned
  deriving DecidableEq, Repr

/-- The request passed to the Reservation Client's cancel operation
(`CancelReservationRequest` in the unit test). -/
structure CancelReservationRequest where
  name : String
  intent : CancelIntent
  deriving DecidableEq, Repr

/-- Modelled from the spec (section 4.3): the Cancel Handler
(`handleCancelRBETask` in the unit test): always calls cancel with the
"any" intent on the deterministic name; not-found is treated as success
(idempotent retry, no redelivery), any other error is a retryable
failure.  `cancelResult` is the error the cancel call returns (none =
success). -/
def handleCancelRBETask (t : CancelRBETask) (cancelResult : Option GStatus) :
    Outcome × CancelReservationRequest :=
  let req : CancelReservationRequest :=
    { name := resName t.rbeInstance t.reservationId, intent := CancelIntent.anyIntent }
  match cancelResult with
  | none => (Outcome.success, req)
  | some st =>
    if st.code = Code.notFound then (Outcome.ignore, req)
    else (Outcome.transientFailure, req)

/-- A reservation value as observed by the Expiry Reconciler: state,
status, opaque result, and the payload from which the slice identity is
decoded. -/
structure ObservedReservation where
  name : String
  state : ReservationState
  status : GStatus
  payload : TaskPayload
  result : Option TaskResult
  deriving DecidableEq, Repr

/-- Modelled from the spec (section 4.4): the Expiry Reconciler
(`ExpireSliceBasedOnReservation` in the unit test): decode the slice
identity from the payload, look up the Claim Record (absent or not
reapable means no-op), run the Outcome Classifier, and if it yields a
decision return the Retire Request sent to the Local Bookkeeping Client
(none = no retire call). -/
def expireSliceBasedOnReservation (res : ObservedReservation)
    (claim : Option ClaimRecord) : Option ExpireSliceRequest :=
  if isReapable claim = false then
    none
  else
    match classify res.state res.status res.result with
    | none => none
    | some (reason, details) =>
      some { taskId := res.payload.taskId
             taskToRunShard := res.payload.taskToRunShard
             taskToRunId := res.payload.taskToRunId
             reason := reason
             details := details }

/-! Sample concrete values, mirroring the fixtures of the unit test. -/

/-- The task payload used by the unit test fixtures. -/
def samplePayload : TaskPayload :=
  { reservationId := "reservation-id"
    taskId := "60b2ed0a43023110"
    sliceIndex := 0
    taskToRunShard := 14
    taskToRunId := 1
    debugInfo := { pySwarmingVersion := "py-version", goSwarmingVersion := "" } }

/-- The enqueue event used by the unit test fixtures, at abstract times:
now = 100, expiry = now + 1h (3700), execution timeout = 10m (600). -/
def sampleTask : EnqueueRBETask :=
  { payload := samplePayload
    rbeInstance := "projects/x/instances/y"
    expiry := 3700
    executionTimeout := 600
    requestedBotId := "some-bot-id"
    constraints := [{ key := "k", allowedValues := ["v"] }]
    priority := 123 }

/-- A reservation value observed by the Expiry Reconciler whose
classifier outcome would be a retire decision (COMPLETED with a
failed-precondition status). -/
def sampleObserved : ObservedReservation :=
  { name := "projects/x/instances/y/reservations/reservation-id"
    state := ReservationState.completed
    status := { code := Code.failedPrecondition, message := "no bots" }
    payload := samplePayload
    result := none }

/-- A looked-up Claim Record that is still reapable. -/
def reapableClaim : Option ClaimRecord := some { reapable := true }

/-! Helper lemmas about the shape of the Enqueue Handler's effects. -/

theorem handleEnqueue_not_reapable (sv : String) (t : EnqueueRBETask) (now : Nat)
    (env : EnqueueEnv) (h : isReapable env.claim = false) :
    handleEnqueueRBETask sv t now env
      = { outcome := Outcome.success, created := none, retired := none } := by
  unfold handleEnqueueRBETask
  rw [if_pos h]

theorem handleEnqueue_create_ok (sv : String) (t : EnqueueRBETask) (now : Nat)
    (env : EnqueueEnv) (h : isReapable env.claim = true) (hc : env.createResult = none) :
    handleEnqueueRBETask sv t now env
      = { outcome := Outcome.success, created := some (buildReservation sv t now),
          retired := none } := by
  unfold handleEnqueueRBETask
  rw [if_neg (by simp [h]), hc]

theorem handleEnqueue_already_exists (sv : String) (t : EnqueueRBETask) (now : Nat)
    (env : EnqueueEnv) (st : GStatus) (h : isReapable env.claim = true)
    (hc : env.createResult = some st) (hae : st.code = Code.alreadyExists) :
    handleEnqueueRBETask sv t now env
      = { outcome := Outcome.success, created := some (buildReservation sv t now),
          retired := none } := by
  unfold handleEnqueueRBETask
  rw [if_neg (by simp [h]), hc]
  simp [hae]

theorem handleEnqueue_transient (sv : String) (t : EnqueueRBETask) (now : Nat)
    (env : EnqueueEnv) (st : GStatus) (h : isReapable env.claim = true)
    (hc : env.createResult = some st) (hae : st.code ≠ Code.alreadyExists)
    (ht : isTransientCode st.code = true) :
    handleEnqueueRBETask sv t now env
      = { outcome := Outcome.transientFailure, created := some (buildReservation sv t now),
          retired := none } := by
  unfold handleEnqueueRBETask
  rw [if_neg (by simp [h]), hc]
  simp [hae, ht]

/-- The Retire Request the Enqueue Handler derives from a terminal
create error. -/
def enqueueRetireReq (t : EnqueueRBETask) (st : GStatus) : ExpireSliceRequest :=
  { taskId := t.payload.taskId
    taskToRunShard := t.payload.taskToRunShard
    taskToRunId := t.payload.taskToRunId
    reason := enqueueFatalReason st.code
    details := renderStatus st }

theorem handleEnqueue_fatal_retire_ok (sv : String) (t : EnqueueRBETask) (now : Nat)
    (env : EnqueueEnv) (st : GStatus) (h : isReapable env.claim = true)
    (hc : env.createResult = some st) (hae : st.code ≠ Code.alreadyExists)
    (ht : isTransientCode st.code = false) (hr : env.retireResult = none) :
    handleEnqueueRBETask sv t now env
      = { outcome := if isExpectedEnqueueFailure st.code then Outcome.ignore else Outcome.fatal
          created := some (buildReservation sv t now)
          retired := some (enqueueRetireReq t st) } := by
  unfold handleEnqueueRBETask
  rw [if_neg (by simp [h]), hc]
  simp [hae, ht, hr, enqueueRetireReq]

theorem handleEnqueue_fatal_retire_failed (sv : String) (t : EnqueueRBETask) (now : Nat)
    (env : EnqueueEnv) (st e : GStatus) (h : isReapable env.claim = true)
    (hc : env.createResult = some st) (hae : st.code ≠ Code.alreadyExists)
    (ht : isTransientCode st.code = false) (hr : env.retireResult = some e) :
    handleEnqueueRBETask sv t now env
      = { outcome := Outcome.transientFailure
          created := some (buildReservation sv t now)
          retired := some (enqueueRetireReq t st) } := by
  unfold handleEnqueueRBETask
  rw [if_neg (by simp [h]), hc]
  simp [hae, ht, hr, enqueueRetireReq]

theorem handleEnqueue_created_eq_build (sv : String) (t : EnqueueRBETask) (now : Nat)
    (env : EnqueueEnv) (r : Reservation)
    (h : (handleEnqueueRBETask sv t now env).created = some r) :
    r = buildReservation sv t now := by
  obtain ⟨claim, createResult, retireResult⟩ := env
  by_cases hre : isReapable claim = false
  · rw [handleEnqueue_not_reapable sv t now _ hre] at h
    exact absurd h (by simp)
  · have hre' : isReapable claim = true := by
      cases hh : isReapable claim
      · exact absurd hh hre
      · rfl
    cases createResult with
    | none =>
      rw [handleEnqueue_create_ok sv t now _ hre' rfl] at h
      exact (Option.some.inj h).symm
    | some st =>
      by_cases hae : st.code = Code.alreadyExists
      · rw [handleEnqueue_already_exists sv t now _ st hre' rfl hae] at h
        exact (Option.some.inj h).symm
      · by_cases ht : isTransientCode st.code = true
        · rw [handleEnqueue_transient sv t now _ st hre' rfl hae ht] at h
          exact (Option.some.inj h).symm
        · have ht' : isTransientCode st.code = false := by
            cases hh : isTransientCode st.code
            · rfl
            · exact absurd hh ht
          cases retireResult with
          | none =>
            rw [handleEnqueue_fatal_retire_ok sv t now _ st hre' rfl hae ht' rfl] at h
            exact (Option.some.inj h).symm
          | some e =>
            rw [handleEnqueue_fatal_retire_failed sv t now _ st e hre' rfl hae ht' rfl] at h
            exact (Option.some.inj h).symm

/-- C1: if the Claim Record for a slice is absent or no longer reapable,
no retire or remote mutation ever happens: the Enqueue Handler reports
success without calling the Reservation Client's create, and the Expiry
Reconciler makes no retire call for any reservation (in particular one
whose classifier outcome would be a retire decision) — a slice claimed
during the race window is never retired. -/
theorem noop_when_claim_absent_or_claimed (sv : String) (t : EnqueueRBETask) (now : Nat)
    (env : EnqueueEnv) (res : ObservedReservation) (claim : Option ClaimRecord)
    (h1 : isReapable env.claim = false) (h2 : isReapable claim = false) :
    (handleEnqueueRBETask sv t now env).outcome = Outcome.success ∧
    (handleEnqueueRBETask sv t now env).created = none ∧
    expireSliceBasedOnReservation res claim = none := by
  rw [handleEnqueue_not_reapable sv t now env h1]
  refine ⟨rfl, rfl, ?_⟩
  unfold expireSliceBasedOnReservation
  rw [if_pos h2]

/-- Witness for C1: at the unit test's fixtures, with an absent Claim
Record for the enqueue event and a claimed (non-reapable) record for the
reconciler, the handler succeeds with no create call and no retire call
is made even though the classifier would decide NO_RESOURCE. -/
theorem noop_when_claim_absent_or_claimed_witness :
    isReapable (none : Option ClaimRecord) = false ∧
    isReapable (some { reapable := false }) = false ∧
    classify sampleObserved.state sampleObserved.status sampleObserved.result
      = some (ExpireReason.noResource, "no bots") ∧
    ((handleEnqueueRBETask "go-version" sampleTask 100
        { claim := none, createResult := none, retireResult := none }).outcome
          = Outcome.success ∧
     (handleEnqueueRBETask "go-version" sampleTask 100
        { claim := none, createResult := none, retireResult := none }).created = none ∧
     expireSliceBasedOnReservation sampleObserved (some { reapable := false }) = none) :=
  ⟨rfl, rfl, rfl,
   noop_when_claim_absent_or_claimed "go-version" sampleTask 100
     { claim := none, createResult := none, retireResult := none }
     sampleObserved (some { reapable := false }) rfl rfl⟩

/-- C2: for a COMPLETED reservation whose result carries no
bot-internal-error, the Outcome Classifier maps status codes:
deadline-exceeded to EXPIRED, failed-precondition to NO_RESOURCE,
aborted to BOT_INTERNAL_ERROR (each with Details = the status message),
and canceled to no decision. -/
theorem classify_status_code_table (msg : String) (result : Option TaskResult)
    (h : botErr result = "") :
    classify ReservationState.completed { code := Code.deadlineExceeded, message := msg } result
      = some (ExpireReason.expired, msg) ∧
    classify ReservationState.completed { code := Code.failedPrecondition, message := msg } result
      = some (ExpireReason.noResource, msg) ∧
    classify ReservationState.completed { code := Code.aborted, message := msg } result
      = some (ExpireReason.botInternalError, msg) ∧
    classify ReservationState.completed { code := Code.cancelled, message := msg } result
      = none := by
  refine ⟨?_, ?_, ?_, ?_⟩ <;> simp [classify, h]

/-- Witness for C2: the status-code table evaluated at the unit test's
messages with no result attached. -/
theorem classify_status_code_table_witness :
    botErr (none : Option TaskResult) = "" ∧
    (classify ReservationState.completed
        { code := Code.deadlineExceeded, message := "deadline" } none
       = some (ExpireReason.expired, "deadline") ∧
     classify ReservationState.completed
        { code := Code.failedPrecondition, message := "deadline" } none
       = some (ExpireReason.noResource, "deadline") ∧
     classify ReservationState.completed
        { code := Code.aborted, message := "deadline" } none
       = some (ExpireReason.botInternalError, "deadline") ∧
     classify ReservationState.completed
        { code := Code.cancelled, message := "deadline" } none
       = none) :=
  ⟨rfl, classify_status_code_table "deadline" none rfl⟩

/-- C3: for a COMPLETED reservation whose result carries a non-empty
bot-internal-error string, the classifier returns BOT_INTERNAL_ERROR
with Details equal to (hence containing) that string, regardless of the
status code — including deadline-exceeded. -/
theorem classify_bot_internal_error_wins (st : GStatus) (r : TaskResult)
    (h : r.botInternalError ≠ "") :
    classify ReservationState.completed st (some r)
      = some (ExpireReason.botInternalError, r.botInternalError) := by
  simp [classify, botErr, h]

/-- Witness for C3: the unit test's "Bot internal error" case — a
COMPLETED reservation with status deadline-exceeded ("ignored") and a
result carrying bot-internal-error "boom" classifies as
BOT_INTERNAL_ERROR "boom". -/
theorem classify_bot_internal_error_wins_witness :
    ({ botInternalError := "boom" } : TaskResult).botInternalError ≠ "" ∧
    classify ReservationState.completed { code := Code.deadlineExceeded, message := "ignored" }
        (some { botInternalError := "boom" })
      = some (ExpireReason.botInternalError, "boom") :=
  ⟨by decide,
   classify_bot_internal_error_wins { code := Code.deadlineExceeded, message := "ignored" }
     { botInternalError := "boom" } (by decide)⟩

/-- Counterexample to C4 as stated: a COMPLETED reservation with no
error status (code OK) and a result present is claimed to yield no
decision, but when that result carries a non-empty bot-internal-error
the classifier does decide (BOT_INTERNAL_ERROR, per its rule 2). -/
theorem classify_ok_with_result_cx :
    classify ReservationState.completed { code := Code.ok, message := "" }
        (some { botInternalError := "boom" })
      = some (ExpireReason.botInternalError, "boom") ∧
    classify ReservationState.completed { code := Code.ok, message := "" }
        (some { botInternalError := "boom" }) ≠ none := by
  exact ⟨rfl, by decide⟩

/-- C4 as amended: the classifier returns no decision for every
reservation whose state is not COMPLETED (PENDING or CANCELLED), and for
every COMPLETED reservation with no error status and a result present
whose bot-internal-error is empty; a COMPLETED reservation with no error
status and no result yields BOT_INTERNAL_ERROR with Details
"unexpectedly finished". -/
theorem classify_default_cases (st : GStatus) (result : Option TaskResult)
    (msg : String) (r : TaskResult) (hbe : r.botInternalError = "") :
    classify ReservationState.pending st result = none ∧
    classify ReservationState.cancelled st result = none ∧
    classify ReservationState.completed { code := Code.ok, message := msg } (some r) = none ∧
    classify ReservationState.completed { code := Code.ok, message := msg } none
      = some (ExpireReason.botInternalError, "unexpectedly finished") := by
  refine ⟨?_, ?_, ?_, ?_⟩ <;> simp [classify, botErr, hbe]

/-- Witness for C4 (amended): the unit test's "Still pending",
"Successful" (empty TaskResult) and "Unexpectedly successful" cases. -/
theorem classify_default_cases_witness :
    ({ botInternalError := "" } : TaskResult).botInternalError = "" ∧
    (classify ReservationState.pending { code := Code.ok, message := "" } none = none ∧
     classify ReservationState.cancelled { code := Code.ok, message := "" } none = none ∧
     classify ReservationState.completed { code := Code.ok, message := "" }
        (some { botInternalError := "" }) = none ∧
     classify ReservationState.completed { code := Code.ok, message := "" } none
       = some (ExpireReason.botInternalError, "unexpectedly finished")) :=
  ⟨rfl, classify_default_cases { code := Code.ok, message := "" } none ""
     { botInternalError := "" } rfl⟩

/-- C5: for every enqueue event whose claim record is reapable, the
Reservation passed to create has the deterministic name derived from
(scheduler instance, reservation id), expire-time = input expiry +
execution timeout, queueing-timeout = input expiry - now, and every
constraint key k re-keyed to "label:" ++ k with allowed values
unchanged. -/
theorem enqueue_builds_reservation (sv : String) (t : EnqueueRBETask) (now : Nat)
    (env : EnqueueEnv) (h : isReapable env.claim = true) :
    ∃ r, (handleEnqueueRBETask sv t now env).created = some r ∧
      r.name = resName t.rbeInstance t.payload.reservationId ∧
      r.expireTime = t.expiry + t.executionTimeout ∧
      r.queuingTimeout = t.expiry - now ∧
      r.constraints
        = t.constraints.map (fun c => { c with key := "label:" ++ c.key }) := by
  refine ⟨buildReservation sv t now, ?_, rfl, rfl, rfl, rfl⟩
  obtain ⟨claim, createResult, retireResult⟩ := env
  cases createResult with
  | none => rw [handleEnqueue_create_ok sv t now _ h rfl]
  | some st =>
    by_cases hae : st.code = Code.alreadyExists
    · rw [handleEnqueue_already_exists sv t now _ st h rfl hae]
    · cases ht : isTransientCode st.code with
      | true => rw [handleEnqueue_transient sv t now _ st h rfl hae ht]
      | false =>
        cases retireResult with
        | none => rw [handleEnqueue_fatal_retire_ok sv t now _ st h rfl hae ht rfl]
        | some e => rw [handleEnqueue_fatal_retire_failed sv t now _ st e h rfl hae ht rfl]

/-- Witness for C5, Scenario A: at now = 100 with expiry = now + 1h
(3700) and execution timeout = 10m (600), the created reservation has
the concrete name, expire-time = now + 1h10m (4300), queueing-timeout =
1h (3600), and constraint key "k" re-keyed to "label:k" with values
unchanged. -/
theorem enqueue_builds_reservation_witness :
    isReapable reapableClaim = true ∧
    (∃ r, (handleEnqueueRBETask "go-version" sampleTask 100
            { claim := reapableClaim, createResult := none, retireResult := none }).created
          = some r ∧
      r.name = "projects/x/instances/y/reservations/reservation-id" ∧
      r.expireTime = 4300 ∧
      r.queuingTimeout = 3600 ∧
      r.constraints = [{ key := "label:k", allowedValues := ["v"] }]) :=
  ⟨rfl, enqueue_builds_reservation "go-version" sampleTask 100
     { claim := reapableClaim, createResult := none, retireResult := none } rfl⟩

/-- C6: when create fails with a non-transient, non-already-exists
error, the Enqueue Handler calls retire exactly once with Reason mapped
from the status code (failed-precondition to NO_RESOURCE,
permission-denied to PERMISSION_DENIED, default to BOT_INTERNAL_ERROR)
and Details equal to (hence containing) the error's rendered text; when
the retire call succeeds, the outcome is non-retryable: ignorable for
failed-precondition and alerting for permission-denied. -/
theorem enqueue_fatal_error_retires (sv : String) (t : EnqueueRBETask) (now : Nat)
    (env : EnqueueEnv) (st : GStatus) (h : isReapable env.claim = true)
    (hc : env.createResult = some st) (hae : st.code ≠ Code.alreadyExists)
    (ht : isTransientCode st.code = false) (hr : env.retireResult = none) :
    (handleEnqueueRBETask sv t now env).retired
      = some { taskId := t.payload.taskId
               taskToRunShard := t.payload.taskToRunShard
               taskToRunId := t.payload.taskToRunId
               reason := enqueueFatalReason st.code
               details := renderStatus st } ∧
    (enqueueFatalReason Code.failedPrecondition = ExpireReason.noResource ∧
     enqueueFatalReason Code.permissionDenied = ExpireReason.permissionDenied ∧
     (st.code ≠ Code.failedPrecondition → st.code ≠ Code.permissionDenied →
       enqueueFatalReason st.code = ExpireReason.botInternalError)) ∧
    Outcome.retried (handleEnqueueRBETask sv t now env).outcome = false ∧
    (st.code = Code.failedPrecondition →
      (handleEnqueueRBETask sv t now env).outcome = Outcome.ignore) ∧
    (st.code = Code.permissionDenied →
      (handleEnqueueRBETask sv t now env).outcome = Outcome.fatal) := by
  rw [handleEnqueue_fatal_retire_ok sv t now env st h hc hae ht hr]
  refine ⟨rfl, ⟨rfl, rfl, ?_⟩, ?_, ?_, ?_⟩
  · intro h1 h2
    cases hcode : st.code <;> simp [enqueueFatalReason] <;>
      simp [hcode] at h1 h2
  · cases hexp : isExpectedEnqueueFailure st.code <;> simp [Outcome.retried]
  · intro hfp
    simp [isExpectedEnqueueFailure, hfp]
  · intro hpd
    simp [isExpectedEnqueueFailure, hpd]

/-- Witness for C6, Scenarios B and C: create failing with
failed-precondition "boom" retires with NO_RESOURCE and the rendered
text "rpc error: code = FailedPrecondition desc = boom" and yields the
ignorable outcome; the PERMISSION_DENIED mapping is recorded in the
table conjunct. -/
theorem enqueue_fatal_error_retires_witness :
    isReapable reapableClaim = true ∧
    (let st : GStatus := { code := Code.failedPrecondition, message := "boom" }
     let env : EnqueueEnv :=
       { claim := reapableClaim, createResult := some st, retireResult := none }
     (handleEnqueueRBETask "go-version" sampleTask 100 env).retired
        = some { taskId := "60b2ed0a43023110"
                 taskToRunShard := 14
                 taskToRunId := 1
                 reason := ExpireReason.noResource
                 details := "rpc error: code = FailedPrecondition desc = boom" } ∧
     (handleEnqueueRBETask "go-version" sampleTask 100 env).outcome = Outcome.ignore ∧
     Outcome.retried (handleEnqueueRBETask "go-version" sampleTask 100 env).outcome
        = false) := by
  refine ⟨rfl, ?_, ?_, ?_⟩
  · exact ((enqueue_fatal_error_retires "go-version" sampleTask 100
      { claim := reapableClaim
        createResult := some { code := Code.failedPrecondition, message := "boom" }
        retireResult := none }
      { code := Code.failedPrecondition, message := "boom" }
      rfl rfl (by decide) rfl rfl).1).trans (by rfl)
  · exact (enqueue_fatal_error_retires "go-version" sampleTask 100
      { claim := reapableClaim
        createResult := some { code := Code.failedPrecondition, message := "boom" }
        retireResult := none }
      { code := Code.failedPrecondition, message := "boom" }
      rfl rfl (by decide) rfl rfl).2.2.2.1 rfl
  · exact (enqueue_fatal_error_retires "go-version" sampleTask 100
      { claim := reapableClaim
        createResult := some { code := Code.failedPrecondition, message := "boom" }
        retireResult := none }
      { code := Code.failedPrecondition, message := "boom" }
      rfl rfl (by decide) rfl rfl).2.2.1

/-- C7: when the retire call after a terminal create error itself fails,
the Enqueue Handler discards the terminal classification and returns a
plain retryable failure, carrying neither the ignorable nor the alerting
terminal tag. -/
theorem enqueue_retire_failure_downgrades (sv : String) (t : EnqueueRBETask) (now : Nat)
    (env : EnqueueEnv) (st e : GStatus) (h : isReapable env.claim = true)
    (hc : env.createResult = some st) (hae : st.code ≠ Code.alreadyExists)
    (ht : isTransientCode st.code = false) (hr : env.retireResult = some e) :
    (handleEnqueueRBETask sv t now env).outcome = Outcome.transientFailure ∧
    (handleEnqueueRBETask sv t now env).outcome ≠ Outcome.ignore ∧
    (handleEnqueueRBETask sv t now env).outcome ≠ Outcome.fatal ∧
    Outcome.retried (handleEnqueueRBETask sv t now env).outcome = true := by
  rw [handleEnqueue_fatal_retire_failed sv t now env st e h hc hae ht hr]
  exact ⟨rfl, by simp, by simp, rfl⟩

/-- Witness for C7: the unit test's "expected, report failed" case —
create fails with failed-precondition "boom", retire fails with
invalid-argument "boom", and the handler outcome is a plain retryable
failure. -/
theorem enqueue_retire_failure_downgrades_witness :
    isReapable reapableClaim = true ∧
    ((handleEnqueueRBETask "go-version" sampleTask 100
        { claim := reapableClaim
          createResult := some { code := Code.failedPrecondition, message := "boom" }
          retireResult := some { code := Code.invalidArgument, message := "boom" } }).outcome
        = Outcome.transientFailure ∧
     (handleEnqueueRBETask "go-version" sampleTask 100
        { claim := reapableClaim
          createResult := some { code := Code.failedPrecondition, message := "boom" }
          retireResult := some { code := Code.invalidArgument, message := "boom" } }).outcome
        ≠ Outcome.ignore ∧
     (handleEnqueueRBETask "go-version" sampleTask 100
        { claim := reapableClaim
          createResult := some { code := Code.failedPrecondition, message := "boom" }
          retireResult := some { code := Code.invalidArgument, message := "boom" } }).outcome
        ≠ Outcome.fatal ∧
     Outcome.retried (handleEnqueueRBETask "go-version" sampleTask 100
        { claim := reapableClaim
          createResult := some { code := Code.failedPrecondition, message := "boom" }
          retireResult := some { code := Code.invalidArgument, message := "boom" } }).outcome
        = true) :=
  ⟨rfl, enqueue_retire_failure_downgrades "go-version" sampleTask 100
     { claim := reapableClaim
       createResult := some { code := Code.failedPrecondition, message := "boom" }
       retireResult := some { code := Code.invalidArgument, message := "boom" } }
     { code := Code.failedPrecondition, message := "boom" }
     { code := Code.invalidArgument, message := "boom" }
     rfl rfl (by decide) rfl rfl⟩

/-- C8: the Enqueue Handler returns success when create reports
already-exists (idempotent convergence), and returns a retryable failure
with no retire call when create fails with the transient infrastructure
error "internal". -/
theorem enqueue_idempotent_and_transient (sv : String) (t : EnqueueRBETask) (now : Nat)
    (claim : Option ClaimRecord) (st1 st2 : GStatus) (rr1 rr2 : Option GStatus)
    (h : isReapable claim = true)
    (h1 : st1.code = Code.alreadyExists) (h2 : st2.code = Code.internal) :
    (handleEnqueueRBETask sv t now
        { claim := claim, createResult := some st1, retireResult := rr1 }).outcome
      = Outcome.success ∧
    (handleEnqueueRBETask sv t now
        { claim := claim, createResult := some st2, retireResult := rr2 }).outcome
      = Outcome.transientFailure ∧
    (handleEnqueueRBETask sv t now
        { claim := claim, createResult := some st2, retireResult := rr2 }).retired
      = none := by
  rw [handleEnqueue_already_exists sv t now _ st1 h rfl h1,
      handleEnqueue_transient sv t now _ st2 h rfl (by simp [h2]) (by simp [h2, isTransientCode])]
  exact ⟨rfl, rfl, rfl⟩

/-- Witness for C8: the unit test's "already exists" and "transient err"
cases at the fixture event. -/
theorem enqueue_idempotent_and_transient_witness :
    isReapable reapableClaim = true ∧
    ((handleEnqueueRBETask "go-version" sampleTask 100
        { claim := reapableClaim
          createResult := some { code := Code.alreadyExists, message := "boom" }
          retireResult := none }).outcome = Outcome.success ∧
     (handleEnqueueRBETask "go-version" sampleTask 100
        { claim := reapableClaim
          createResult := some { code := Code.internal, message := "boom" }
          retireResult := none }).outcome = Outcome.transientFailure ∧
     (handleEnqueueRBETask "go-version" sampleTask 100
        { claim := reapableClaim
          createResult := some { code := Code.internal, message := "boom" }
          retireResult := none }).retired = none) :=
  ⟨rfl, enqueue_idempotent_and_transient "go-version" sampleTask 100 reapableClaim
     { code := Code.alreadyExists, message := "boom" }
     { code := Code.internal, message := "boom" } none none rfl rfl rfl⟩

/-- C9: the Cancel Handler always calls the Reservation Client's cancel
with the "any" intent on the name derived from (scheduler instance,
reservation id); a not-found response is treated as success with no
retry, and any other error (e.g. internal) is a retryable failure. -/
theorem cancel_handler_spec (t : CancelRBETask) (cr : Option GStatus)
    (st : GStatus) (msg : String) (hnf : st.code ≠ Code.notFound) :
    (handleCancelRBETask t cr).2
      = { name := resName t.rbeInstance t.reservationId, intent := CancelIntent.anyIntent } ∧
    (handleCancelRBETask t none).1 = Outcome.success ∧
    Outcome.reportsHandled
        (handleCancelRBETask t (some { code := Code.notFound, message := msg })).1 = true ∧
    Outcome.retried
        (handleCancelRBETask t (some { code := Code.notFound, message := msg })).1 = false ∧
    (handleCancelRBETask t (some st)).1 = Outcome.transientFailure := by
  refine ⟨?_, rfl, rfl, rfl, ?_⟩
  · cases cr with
    | none => rfl
    | some s =>
      unfold handleCancelRBETask
      by_cases hs : s.code = Code.notFound <;> simp [hs]
  · unfold handleCancelRBETask
    simp [hnf]

/-- Witness for C9: the unit test's cancel cases — the request carries
the concrete name and the ANY intent, a nil response is success, a
not-found "boo" response is handled with no retry, and an internal
"boo" response is a retryable failure. -/
theorem cancel_handler_spec_witness :
    ({ code := Code.internal, message := "boo" } : GStatus).code ≠ Code.notFound ∧
    ((handleCancelRBETask
        { rbeInstance := "projects/x/instances/y", reservationId := "reservation-id" }
        none).2
      = { name := "projects/x/instances/y/reservations/reservation-id"
          intent := CancelIntent.anyIntent } ∧
     (handleCancelRBETask
        { rbeInstance := "projects/x/instances/y", reservationId := "reservation-id" }
        none).1 = Outcome.success ∧
     Outcome.reportsHandled
        (handleCancelRBETask
          { rbeInstance := "projects/x/instances/y", reservationId := "reservation-id" }
          (some { code := Code.notFound, message := "boo" })).1 = true ∧
     Outcome.retried
        (handleCancelRBETask
          { rbeInstance := "projects/x/instances/y", reservationId := "reservation-id" }
          (some { code := Code.notFound, message := "boo" })).1 = false ∧
     (handleCancelRBETask
        { rbeInstance := "projects/x/instances/y", reservationId := "reservation-id" }
        (some { code := Code.internal, message := "boo" })).1
       = Outcome.transientFailure) :=
  ⟨by decide,
   cancel_handler_spec
     { rbeInstance := "projects/x/instances/y", reservationId := "reservation-id" }
     none { code := Code.internal, message := "boo" } "boo" (by decide)⟩

/-- C10: the payload embedded in the created reservation equals the
input Task Slice Payload with every slice-identity and diagnostic field
unchanged (reservation id, task id, slice index, shard, sequence id, and
the pre-existing upstream version tag), except that exactly one field is
set: this handler's own server-version tag. -/
theorem enqueue_payload_frame (sv : String) (t : EnqueueRBETask) (now : Nat)
    (env : EnqueueEnv) (r : Reservation)
    (h : (handleEnqueueRBETask sv t now env).created = some r) :
    r.payload.reservationId = t.payload.reservationId ∧
    r.payload.taskId = t.payload.taskId ∧
    r.payload.sliceIndex = t.payload.sliceIndex ∧
    r.payload.taskToRunShard = t.payload.taskToRunShard ∧
    r.payload.taskToRunId = t.payload.taskToRunId ∧
    r.payload.debugInfo.pySwarmingVersion = t.payload.debugInfo.pySwarmingVersion ∧
    r.payload.debugInfo.goSwarmingVersion = sv ∧
    r.payload
      = { t.payload with
          debugInfo := { t.payload.debugInfo with goSwarmingVersion := sv } } := by
  rw [handleEnqueue_created_eq_build sv t now env r h]
  exact ⟨rfl, rfl, rfl, rfl, rfl, rfl, rfl, rfl⟩

/-- Witness for C10: the unit test's "handleEnqueueRBETask ok" case —
the embedded payload is the fixture payload with only the
go-swarming-version tag set. -/
theorem enqueue_payload_frame_witness :
    (handleEnqueueRBETask "go-version" sampleTask 100
        { claim := reapableClaim, createResult := none, retireResult := none }).created
      = some (buildReservation "go-version" sampleTask 100) ∧
    (buildReservation "go-version" sampleTask 100).payload
      = { reservationId := "reservation-id"
          taskId := "60b2ed0a43023110"
          sliceIndex := 0
          taskToRunShard := 14
          taskToRunId := 1
          debugInfo := { pySwarmingVersion := "py-version"
                         goSwarmingVersion := "go-version" } } ∧
    ((buildReservation "go-version" sampleTask 100).payload.reservationId
        = sampleTask.payload.reservationId ∧
     (buildReservation "go-version" sampleTask 100).payload.taskId
        = sampleTask.payload.taskId ∧
     (buildReservation "go-version" sampleTask 100).payload.sliceIndex
        = sampleTask.payload.sliceIndex ∧
     (buildReservation "go-version" sampleTask 100).payload.taskToRunShard
        = sampleTask.payload.taskToRunShard ∧
     (buildReservation "go-version" sampleTask 100).payload.taskToRunId
        = sampleTask.payload.taskToRunId ∧
     (buildReservation "go-version" sampleTask 100).payload.debugInfo.pySwarmingVersion
        = sampleTask.payload.debugInfo.pySwarmingVersion ∧
     (buildReservation "go-version" sampleTask 100).payload.debugInfo.goSwarmingVersion
        = "go-version" ∧
     (buildReservation "go-version" sampleTask 100).payload
        = { sampleTask.payload with
            debugInfo := { sampleTask.payload.debugInfo with
                           goSwarmingVersion := "go-version" } }) :=
  ⟨rfl, rfl,
   enqueue_payload_frame "go-version" sampleTask 100
     { claim := reapableClaim, createResult := none, retireResult := none }
     (buildReservation "go-version" sampleTask 100) rfl⟩

end LuciRBE
